import Mathlib

/-
Verification of the security-policy configuration and request-gating pipeline
of the hardened Express server repository.

The definitions below are shallow embeddings of the JavaScript source files:
  * src/src/middleware/validation.js  (escapeHtml, sanitizeErrorMessage,
    sanitizeObject, sanitizeBody)
  * src/src/config/security.js        (parseAllowedOrigins, corsConfig,
    rateLimitConfig, NODE_ENV handling)
  * config/rateLimit.js               (alternate rate-limit config)
  * src/src/middleware/security.js    (configureHelmet COEP handling)
  * server.js                         (TLS loading and startup sequence)
JavaScript strings are modelled as Lean String / List Char, the JS numbers
that matter here are integers (modelled as Int/Nat), and NaN / undefined are
modelled with Option.
-/

-- =========================================================================
-- Character utilities shared by the embeddings
-- =========================================================================

/-- The whitespace characters recognised by JS String.prototype.trim and the
regex class backslash-s, restricted to the code points that occur in the
strings this development reasons about (space, tab, LF, CR, VT, FF, NBSP,
BOM). -/
def isJsWhitespaceChar (c : Char) : Bool :=
  c = ' ' || c = '\t' || c = '\n' || c = '\r' ||
  c = Char.ofNat 11 || c = Char.ofNat 12 || c = Char.ofNat 160 || c = Char.ofNat 65279

/-- Drop JS whitespace from both ends of a character list (JS trim). -/
def trimListChars (l : List Char) : List Char :=
  ((l.dropWhile isJsWhitespaceChar).reverse.dropWhile isJsWhitespaceChar).reverse

/-- JS String.prototype.trim. -/
def jsTrim (s : String) : String := String.mk (trimListChars s.data)

/-- True when every character of the string is JS whitespace. -/
def isWsOnly (s : String) : Bool := s.data.all isJsWhitespaceChar

/-- ASCII letter, the regex class [a-zA-Z]. -/
def isAsciiLetterCh (c : Char) : Bool := c.isAlpha

/-- ASCII digit, the regex class [0-9]. -/
def isDigitCh (c : Char) : Bool := c.isDigit

/-- The regex class backslash-w, i.e. [A-Za-z0-9_]. -/
def isWordChar (c : Char) : Bool := c.isAlphanum || c = '_'

/-- Whether an optional character (none = string edge) is a word character;
used for the regex word-boundary test. -/
def isWordOpt : Option Char → Bool
  | none => false
  | some c => isWordChar c

/-- Length of the longest prefix satisfying p (maximal munch of a regex
character class). -/
def countWhile (p : Char → Bool) (l : List Char) : Nat := (l.takeWhile p).length

/-- Case-insensitive test that w is a prefix of l (regex i flag on literals). -/
def ciStartsWith : List Char → List Char → Bool
  | [], _ => true
  | _ :: _, [] => false
  | a :: w, c :: l => (a.toLower = c.toLower) && ciStartsWith w l

-- =========================================================================
-- escapeHtml (src/src/middleware/validation.js, HTML_ESCAPE_MAP)
-- =========================================================================

/-- Image of one character under escapeHtml: the eight characters of
HTML_ESCAPE_MAP map to their entities, everything else to itself. Embeds the
regex replace over the class of those eight characters. Char.ofNat 34, 39
and 96 are the double quote, the apostrophe and the backquote. -/
def htmlEscapeChar (c : Char) : List Char :=
  if c = '&' then ['&', 'a', 'm', 'p', ';']
  else if c = '<' then ['&', 'l', 't', ';']
  else if c = '>' then ['&', 'g', 't', ';']
  else if c = Char.ofNat 34 then ['&', 'q', 'u', 'o', 't', ';']
  else if c = Char.ofNat 39 then ['&', '#', 'x', '2', '7', ';']
  else if c = '/' then ['&', '#', 'x', '2', 'F', ';']
  else if c = Char.ofNat 96 then ['&', '#', 'x', '6', '0', ';']
  else if c = '=' then ['&', '#', 'x', '3', 'D', ';']
  else [c]

/-- escapeHtml on a character list. -/
def escapeList : List Char → List Char
  | [] => []
  | c :: l => htmlEscapeChar c ++ escapeList l

/-- escapeHtml from src/src/middleware/validation.js (the typeof guard of the
source is subsumed by the String type). -/
def escapeHtml (s : String) : String := String.mk (escapeList s.data)

-- =========================================================================
-- Entity re-parsing (claim C8)
-- =========================================================================

/-- Recognise one of the eight entities produced by HTML_ESCAPE_MAP at the
head of the list (the part after the ampersand); returns the decoded
character and the number of characters consumed after the ampersand. -/
def entityAt (l : List Char) : Option (Char × Nat) :=
  if l.take 4 = ['a', 'm', 'p', ';'] then some ('&', 4)
  else if l.take 3 = ['l', 't', ';'] then some ('<', 3)
  else if l.take 3 = ['g', 't', ';'] then some ('>', 3)
  else if l.take 5 = ['q', 'u', 'o', 't', ';'] then some (Char.ofNat 34, 5)
  else if l.take 5 = ['#', 'x', '2', '7', ';'] then some (Char.ofNat 39, 5)
  else if l.take 5 = ['#', 'x', '2', 'F', ';'] then some ('/', 5)
  else if l.take 5 = ['#', 'x', '6', '0', ';'] then some (Char.ofNat 96, 5)
  else if l.take 5 = ['#', 'x', '3', 'D', ';'] then some ('=', 5)
  else none

/-- Modelled from the spec: "escaping a string once and re-parsing the
entities must recover the original string exactly" (P5). The source has no
decoder, so this follows the spec's words: a scanner that recognises the
eight entities produced by HTML_ESCAPE_MAP and replaces each by its
character, leaving every other character alone. -/
def decodeList : List Char → List Char
  | [] => []
  | c :: rest =>
    if c = '&' then
      match entityAt rest with
      | some (d, k) => d :: decodeList (rest.drop k)
      | none => '&' :: decodeList rest
    else c :: decodeList rest
termination_by l => l.length
decreasing_by
  all_goals simp only [List.length_cons, List.length_drop]
  all_goals omega

/-- Entity re-parser on strings. -/
def decodeEntities (s : String) : String := String.mk (decodeList s.data)

-- =========================================================================
-- sanitizeObject / sanitizeBody (src/src/middleware/validation.js)
-- =========================================================================

/-- A JavaScript structured value as handled by sanitizeObject: null,
undefined, booleans, numbers, strings, arrays, and plain objects (ordered
key/value fields, as iterated by Object.entries). -/
inductive JSValue where
  | nullV
  | undef
  | boolV (b : Bool)
  | num (n : Int)
  | str (s : String)
  | arr (xs : List JSValue)
  | obj (fields : List (String × JSValue))

mutual

/-- sanitizeObject from src/src/middleware/validation.js: depth guard
(MAX_DEPTH = 10, checked with depth > MAX_DEPTH before anything else),
null/undefined passthrough, strings trimmed then HTML-escaped, arrays mapped
elementwise, objects rebuilt with escaped keys and sanitized values, other
scalars unchanged; children recurse at depth + 1. -/
def sanitizeObject : JSValue → Nat → JSValue
  | v, depth =>
    if 10 < depth then v
    else
      match v with
      | JSValue.nullV => JSValue.nullV
      | JSValue.undef => JSValue.undef
      | JSValue.str s => JSValue.str (escapeHtml (jsTrim s))
      | JSValue.arr xs => JSValue.arr (sanitizeArr xs (depth + 1))
      | JSValue.obj fs => JSValue.obj (sanitizeFields fs (depth + 1))
      | JSValue.boolV b => JSValue.boolV b
      | JSValue.num n => JSValue.num n

def sanitizeArr : List JSValue → Nat → List JSValue
  | [], _ => []
  | x :: xs, depth => sanitizeObject x depth :: sanitizeArr xs depth

def sanitizeFields : List (String × JSValue) → Nat → List (String × JSValue)
  | [], _ => []
  | (k, x) :: fs, depth => (escapeHtml k, sanitizeObject x depth) :: sanitizeFields fs depth

end

/-- The typeof-object guard of sanitizeBody: arrays and non-null objects. -/
def isObjectLike : JSValue → Bool
  | JSValue.arr _ => true
  | JSValue.obj _ => true
  | _ => false

/-- sanitizeBody from src/src/middleware/validation.js: replaces req.body by
sanitizeObject(req.body) when the body is a truthy object (array or plain
object); other bodies pass through untouched. -/
def sanitizeBody (body : JSValue) : JSValue :=
  if isObjectLike body then sanitizeObject body 0 else body

-- =========================================================================
-- sanitizeErrorMessage (src/src/middleware/validation.js)
--
-- The seven sensitive regex patterns are embedded as position matchers:
-- each takes the character before the position (for word boundaries) and the
-- tail of the string at the position, and returns the length of the leftmost
-- greedy match there, following the JS regex engine's leftmost/greedy
-- backtracking semantics.
-- =========================================================================

/-- The class [a-zA-Z0-9_DOT-DASH-SLASH] of the file-path pattern. -/
def isPathChar (c : Char) : Bool :=
  c.isAlphanum || c = '_' || c = '-' || c = '.' || c = '/'

/-- The class of characters allowed in a stack-frame name: word characters
plus dot and angle brackets. -/
def isStackNameChar (c : Char) : Bool :=
  isWordChar c || c = '.' || c = '<' || c = '>'

/-- The replacement text of every redaction pass. -/
def redactedMarker : List Char := ['[', 'R', 'E', 'D', 'A', 'C', 'T', 'E', 'D', ']']

/-- Backtracking loop of the file-path pattern: after the leading slash and
with the length of the maximal run of path characters, try consuming j path
characters (largest first, the regex plus is greedy), then require a dot
followed by at least one letter (also maximal). Returns the whole match
length including the leading slash. -/
def filePathTail (rest : List Char) : Nat → Option Nat
  | 0 => none
  | j + 1 =>
    match rest.drop (j + 1) with
    | '.' :: tail =>
      let m := countWhile isAsciiLetterCh tail
      if m = 0 then filePathTail rest j else some (j + 3 + m)
    | _ => filePathTail rest j

/-- The file-path pattern: slash, one or more path characters, dot, one or
more letters. -/
def matchFilePathAt : List Char → Option Nat
  | '/' :: rest => filePathTail rest (countWhile isPathChar rest)
  | _ => none

/-- The stack-trace-frame pattern: the letters a t, whitespace, a run of
name characters, whitespace, an opening parenthesis, a nonempty run of
non-closing-parenthesis characters, a closing parenthesis. All the character
classes involved are pairwise disjoint from their successors, so greedy
maximal munch needs no backtracking here. -/
def matchStackAt : List Char → Option Nat
  | 'a' :: 't' :: rest =>
    let w1 := countWhile isJsWhitespaceChar rest
    if w1 = 0 then none
    else
      let r1 := rest.drop w1
      let p := countWhile isStackNameChar r1
      if p = 0 then none
      else
        let r2 := r1.drop p
        let w2 := countWhile isJsWhitespaceChar r2
        if w2 = 0 then none
        else
          match r2.drop w2 with
          | '(' :: r3 =>
            let q := countWhile (fun c => !(c = ')')) r3
            if q = 0 then none
            else
              match r3.drop q with
              | ')' :: _ => some (2 + w1 + p + w2 + 1 + q + 1)
              | _ => none
          | _ => none
  | _ => none

/-- The six SQL keywords of the pattern, in the source's alternation order. -/
def sqlWords : List (List Char) :=
  [['S', 'E', 'L', 'E', 'C', 'T'], ['I', 'N', 'S', 'E', 'R', 'T'],
   ['U', 'P', 'D', 'A', 'T', 'E'], ['D', 'E', 'L', 'E', 'T', 'E'],
   ['F', 'R', 'O', 'M'], ['W', 'H', 'E', 'R', 'E']]

/-- First alternative of a word list matching case-insensitively at the
position (JS alternation tries alternatives left to right). -/
def firstWordAt : List (List Char) → List Char → Option Nat
  | [], _ => none
  | w :: ws, l => if ciStartsWith w l then some w.length else firstWordAt ws l

/-- The SQL-keyword pattern with the i flag. -/
def matchSqlAt (l : List Char) : Option Nat := firstWordAt sqlWords l

/-- One to three digits followed by a literal dot. Digits and the dot are
disjoint, so the bounded greedy quantifier succeeds only when the whole digit
run has length one to three (a longer run leaves a digit where the dot must
be, for every backtracking choice). Returns the consumed length and tail. -/
def octetDot (l : List Char) : Option (Nat × List Char) :=
  let d := countWhile isDigitCh l
  if 1 ≤ d ∧ d ≤ 3 then
    match l.drop d with
    | '.' :: r => some (d + 1, r)
    | _ => none
  else none

/-- The IP-address pattern: word boundary, three octet-dot groups, a final
one-to-three digit octet, word boundary. prev is the character before the
position. -/
def matchIpAt (prev : Option Char) (l : List Char) : Option Nat :=
  if isWordOpt prev then none
  else
    match octetDot l with
    | none => none
    | some (n1, r1) =>
      match octetDot r1 with
      | none => none
      | some (n2, r2) =>
        match octetDot r2 with
        | none => none
        | some (n3, r3) =>
          let d := countWhile isDigitCh r3
          if 1 ≤ d ∧ d ≤ 3 ∧ isWordOpt ((r3.drop d).head?) = false then
            some (n1 + n2 + n3 + d)
          else none

/-- Shared tail of the connection-string patterns: the three characters
colon slash slash, then a nonempty maximal run of non-whitespace characters.
consumed is the length of the scheme part already matched. -/
def connTail (l : List Char) (consumed : Nat) : Option Nat :=
  if ciStartsWith [':', '/', '/'] l then
    let q := countWhile (fun c => !(isJsWhitespaceChar c)) (l.drop 3)
    if q = 0 then none else some (consumed + 3 + q)
  else none

/-- The MongoDB connection-string pattern (i flag, optional plus-srv group;
when the optional group matches, the rest can never succeed without it, so
the greedy choice is determinate). -/
def matchMongoAt (l : List Char) : Option Nat :=
  if ciStartsWith ['m', 'o', 'n', 'g', 'o', 'd', 'b'] l then
    let r := l.drop 7
    if ciStartsWith ['+', 's', 'r', 'v'] r then connTail (r.drop 4) 11 else connTail r 7
  else none

/-- The PostgreSQL connection-string pattern (i flag, optional q l group). -/
def matchPostgresAt (l : List Char) : Option Nat :=
  if ciStartsWith ['p', 'o', 's', 't', 'g', 'r', 'e', 's'] l then
    let r := l.drop 8
    if ciStartsWith ['q', 'l'] r then connTail (r.drop 2) 10 else connTail r 8
  else none

/-- The MySQL connection-string pattern (i flag). -/
def matchMysqlAt (l : List Char) : Option Nat :=
  if ciStartsWith ['m', 'y', 's', 'q', 'l'] l then connTail (l.drop 5) 5 else none

/-- One global-replace pass of String.prototype.replace with a global regex:
scan left to right over the original text, at each position emit the
redaction marker and skip the matched length when the pattern matches,
otherwise keep the character. Matches are found on the original string and
never on replaced text, exactly as a single JS replace call does. The fuel
argument equals the scanned length, which every step decreases, so the
fuel-exhausted branch is unreachable. -/
def replacePassFuel (matchAt : Option Char → List Char → Option Nat) :
    Nat → Option Char → List Char → List Char
  | 0, _, l => l
  | _ + 1, _, [] => []
  | fuel + 1, prev, c :: rest =>
    match matchAt prev (c :: rest) with
    | some (n + 1) =>
      redactedMarker ++
        replacePassFuel matchAt fuel (some ((c :: rest).getD n c)) (rest.drop n)
    | _ => c :: replacePassFuel matchAt fuel (some c) rest

/-- One global-replace pass over a whole string, starting at the left edge. -/
def replacePass (matchAt : Option Char → List Char → Option Nat) (l : List Char) : List Char :=
  replacePassFuel matchAt l.length none l

/-- Adapt a matcher that ignores the preceding character (patterns without a
word boundary). -/
def ignorePrev (m : List Char → Option Nat) : Option Char → List Char → Option Nat :=
  fun _ l => m l

/-- The seven sequential redaction passes of sanitizeErrorMessage, applied in
the source's order: file paths, stack-trace frames, SQL keywords, IP
addresses, MongoDB, PostgreSQL, MySQL connection strings. -/
def redactAll (l : List Char) : List Char :=
  replacePass (ignorePrev matchMysqlAt)
    (replacePass (ignorePrev matchPostgresAt)
      (replacePass (ignorePrev matchMongoAt)
        (replacePass matchIpAt
          (replacePass (ignorePrev matchSqlAt)
            (replacePass (ignorePrev matchStackAt)
              (replacePass (ignorePrev matchFilePathAt) l))))))

/-- The truncation step: when the redacted message exceeds
MAX_MESSAGE_LENGTH = 200 characters, keep the first 200 and append the
three-dot ellipsis marker. -/
def truncateMessage (l : List Char) : List Char :=
  if 200 < l.length then l.take 200 ++ ['.', '.', '.'] else l

/-- sanitizeErrorMessage from src/src/middleware/validation.js: redact the
seven sensitive patterns, truncate with the ellipsis marker, then HTML-escape
(the non-string guard of the source is subsumed by the String type). -/
def sanitizeErrorMessage (msg : String) : String :=
  String.mk (escapeList (truncateMessage (redactAll msg.data)))

/-- Whether a pattern matcher matches at some position of the list, scanning
with the correct preceding character for word boundaries. -/
def hasMatchFrom (matchAt : Option Char → List Char → Option Nat) :
    Option Char → List Char → Bool
  | prev, [] => (matchAt prev []).isSome
  | prev, c :: rest => (matchAt prev (c :: rest)).isSome || hasMatchFrom matchAt (some c) rest

/-- Whether a pattern matches anywhere in the list. -/
def hasMatch (matchAt : Option Char → List Char → Option Nat) (l : List Char) : Bool :=
  hasMatchFrom matchAt none l

/-- A 201-character message whose IP-like tail is disqualified by the
trailing x (no word boundary after the final octet), so no redaction pass
touches it; the truncation step then cuts the x and re-exposes a full
IP-address match in the returned message. -/
def badIpMsg : String :=
  String.mk (List.replicate 192 'a' ++ [' ', '1', '.', '2', '.', '3', '.', '4', 'x'])

/-- A 201-ampersand message: redaction leaves it alone, truncation keeps 200
ampersands plus the ellipsis, and escaping expands each ampersand to five
characters, giving a 1003-character result. -/
def badAmpMsg : String := String.mk (List.replicate 201 '&')

-- =========================================================================
-- NODE_ENV and the CORS policy (src/src/config/security.js)
-- =========================================================================

/-- NODE_ENV resolution: process.env.NODE_ENV with the development fallback
(absent and empty are both falsy in JS). -/
def resolveNodeEnv : Option String → String
  | none => "development"
  | some s => if s = "" then "development" else s

/-- The resolved allowed-origins value: the deny-all sentinel (the JS value
false), the wildcard sentinel (the JS value true or the bare string star,
which no code path of this repository produces), or a list of origin
strings. -/
inductive OriginSetting where
  | denyAll
  | allowAny
  | allowList (origins : List String)
  deriving DecidableEq

/-- JS String.prototype.split with the comma separator. -/
def splitCommaList : List Char → List (List Char)
  | [] => [[]]
  | c :: rest =>
    if c = ',' then [] :: splitCommaList rest
    else
      match splitCommaList rest with
      | g :: gs => (c :: g) :: gs
      | [] => [[c]]

/-- The split-trim-filter chain of parseAllowedOrigins: comma-split, trim
each entry, drop empty entries, preserving order. -/
def splitOrigins (s : String) : List String :=
  ((splitCommaList s.data).map fun g => String.mk (trimListChars g)).filter
    fun o => 0 < o.length

/-- The environment-dependent default of parseAllowedOrigins: the fixed
localhost allowlist in development, deny-all otherwise. -/
def defaultOrigins (nodeEnv : String) : OriginSetting :=
  if nodeEnv = "development" then
    OriginSetting.allowList ["http://localhost:3000", "https://localhost:3443"]
  else OriginSetting.denyAll

/-- parseAllowedOrigins from src/src/config/security.js: an absent, empty or
whitespace-only ALLOWED_ORIGINS falls back to the environment default,
anything else is comma-split, trimmed and filtered. -/
def parseAllowedOrigins (nodeEnv : String) (originsEnv : Option String) : OriginSetting :=
  match originsEnv with
  | none => defaultOrigins nodeEnv
  | some s =>
    if jsTrim s = "" then defaultOrigins nodeEnv
    else OriginSetting.allowList (splitOrigins s)

/-- The corsConfig object of src/src/config/security.js. -/
structure CorsConfig where
  origin : OriginSetting
  methods : List String
  allowedHeaders : List String
  credentials : Bool
  maxAge : Nat

/-- corsConfig from src/src/config/security.js, as a function of the resolved
NODE_ENV and the ALLOWED_ORIGINS variable. -/
def corsConfig (nodeEnv : String) (originsEnv : Option String) : CorsConfig :=
  CorsConfig.mk (parseAllowedOrigins nodeEnv originsEnv)
    ["GET", "POST", "PUT", "DELETE", "OPTIONS"]
    ["Content-Type", "Authorization"]
    true
    86400

/-- The per-request allow-origin decision: no header, the literal reflected
origin, or the substituted wildcard. -/
inductive OriginDecision where
  | noHeader
  | allowOrigin (v : String)
  | allowWildcard
  deriving DecidableEq

/-- Modelled from the spec: the Origin Gate decision of section 4.2, which is
the interface behavior of the cors middleware the server applies with
corsConfig. A deny-all setting or an absent request origin emits no
allow-origin header; a list setting reflects the request origin exactly when
it is contained in the list; only the wildcard-any setting would emit the
substituted wildcard header. -/
def evaluateOrigin : OriginSetting → Option String → OriginDecision
  | OriginSetting.denyAll, _ => OriginDecision.noHeader
  | OriginSetting.allowAny, _ => OriginDecision.allowWildcard
  | OriginSetting.allowList _, none => OriginDecision.noHeader
  | OriginSetting.allowList l, some o =>
    if l.contains o then OriginDecision.allowOrigin o else OriginDecision.noHeader

-- =========================================================================
-- Rate-limit policy resolution (src/src/config/security.js, config/rateLimit.js)
-- =========================================================================

/-- Accumulate a decimal digit run. -/
def digitsToNat : List Char → Nat → Nat
  | [], acc => acc
  | c :: rest, acc => digitsToNat rest (acc * 10 + (c.toNat - 48))

/-- JS parseInt with radix 10 on a character list: skip leading whitespace,
optional sign, then the maximal digit run; no digits means NaN (none). A
trailing non-digit suffix is ignored, as parseInt does. -/
def jsParseIntList (l : List Char) : Option Int :=
  let parseDigits := fun (sign : Int) (r : List Char) =>
    let ds := r.takeWhile isDigitCh
    if ds.length = 0 then none else some (sign * Int.ofNat (digitsToNat ds 0))
  match l.dropWhile isJsWhitespaceChar with
  | '+' :: r => parseDigits 1 r
  | '-' :: r => parseDigits (-1) r
  | r => parseDigits 1 r

/-- parseInt(value, 10) on an optional environment variable; an absent
variable stringifies to the word undefined and parses to NaN. -/
def jsParseInt : Option String → Option Int
  | none => none
  | some s => jsParseIntList s.data

/-- The JS expression v OR-ELSE d for an integer v: NaN and zero (including
negative zero) are falsy and fall back, every other integer is truthy. -/
def jsOrInt (v : Option Int) (dflt : Int) : Int :=
  match v with
  | none => dflt
  | some n => if n = 0 then dflt else n

/-- windowMs resolution: parseInt(env, 10) with the 900000 fallback. Both
rate-limit configs of the repository use this same expression (with the
variables RATE_LIMIT_WINDOW_MS and RATE_WINDOW_MS respectively). -/
def resolveWindowMs (e : Option String) : Int := jsOrInt (jsParseInt e) 900000

/-- limit resolution: parseInt(env, 10) with the 100 fallback. -/
def resolveLimit (e : Option String) : Int := jsOrInt (jsParseInt e) 100

/-- The express-rate-limit options object as configured by the repository
(fields the claims mention; statusCode and the skip flags are present only in
the config/rateLimit.js variant, hence optional here). -/
structure RateLimitConfig where
  windowMs : Int
  limit : Int
  standardHeaders : String
  legacyHeaders : Bool
  statusCode : Option Nat
  skipSuccessfulRequests : Option Bool
  skipFailedRequests : Option Bool
  message : JSValue

/-- rateLimitConfig from src/src/config/security.js. -/
def securityRateLimitConfig (windowEnv limitEnv : Option String) : RateLimitConfig :=
  RateLimitConfig.mk (resolveWindowMs windowEnv) (resolveLimit limitEnv)
    "draft-8" false none none none
    (JSValue.obj [("error", JSValue.str "Too many requests, please try again later.")])

/-- rateLimitConfig from config/rateLimit.js (the alternate server). -/
def rateLimitConfigAlt (windowEnv limitEnv : Option String) : RateLimitConfig :=
  RateLimitConfig.mk (resolveWindowMs windowEnv) (resolveLimit limitEnv)
    "draft-8" false (some 429) (some false) (some false)
    (JSValue.obj
      [("error", JSValue.str "Too many requests"),
       ("message", JSValue.str "You have exceeded the rate limit. Please try again later.")])

/-- Modelled from the spec: the express-rate-limit rejection envelope (the
library is an external collaborator). On rejection it sends the configured
statusCode (429 when the config leaves it unset, the library default the
spec's section 4.3 also states) with the configured message as the JSON
body. -/
def rejectionResponse (cfg : RateLimitConfig) : Nat × JSValue :=
  (cfg.statusCode.getD 429, cfg.message)

/-- Extract the error field of a JSON body whose first field is the string
error (discriminator used to compare rejection bodies). -/
def errorFieldOf : JSValue → Option String
  | JSValue.obj (("error", JSValue.str s) :: _) => some s
  | _ => none

-- =========================================================================
-- Cross-Origin-Embedder-Policy (src/src/middleware/security.js, server.js)
-- =========================================================================

/-- The crossOriginEmbedderPolicy option of a helmet config object: absent
from the object, explicitly false, or an explicit policy object. -/
inductive CoepOption where
  | unset
  | disabled
  | withPolicy (p : String)
  deriving DecidableEq

/-- Modelled from the spec: helmet's handling of the COEP option, per the
spec's external-collaborator scoping and the repository's own documentation
(the helmet default-header lists in src/src/middleware/security.js and
server.js both omit COEP): the header is emitted only for an explicit policy
value, and helmet v8 does not set it by default. -/
def helmetCoepHeader : CoepOption → Option String
  | CoepOption.unset => none
  | CoepOption.disabled => none
  | CoepOption.withPolicy p => some p

/-- The crossOriginEmbedderPolicy entry computed by configureHelmet in
src/src/middleware/security.js: an explicit override wins, otherwise the
require-corp policy in production and false in development. -/
def configureHelmetCoep (override : Option CoepOption) (isProd : Bool) : CoepOption :=
  match override with
  | some o => o
  | none => if isProd then CoepOption.withPolicy "require-corp" else CoepOption.disabled

/-- The COEP option of the helmetConfig object in src/src/config/security.js:
the object has no crossOriginEmbedderPolicy key at all, in every
environment. -/
def helmetConfigCoep : CoepOption := CoepOption.unset

/-- The COEP header of responses of the served application: server.js applies
helmet(helmetConfig) directly (it does not call configureHelmet), so the
option is the unset one regardless of the environment. -/
def servedCoepHeader (_isProd : Bool) : Option String := helmetCoepHeader helmetConfigCoep

-- =========================================================================
-- TLS loading and startup (server.js)
-- =========================================================================

/-- The observable state of the TLS material on disk: existence and
readability of the private key and the certificate. -/
structure TlsFs where
  keyExists : Bool
  certExists : Bool
  keyReadable : Bool
  certReadable : Bool

/-- Whether loadTlsCertificates succeeds: both files exist (the existsSync
guards) and both reads succeed. -/
def tlsLoadOk (fs : TlsFs) : Bool :=
  fs.keyExists && fs.certExists && fs.keyReadable && fs.certReadable

/-- Outcome of loadTlsCertificates: certificates loaded, process exited
(production catch branch), or warning logged with httpsOptions left null
(development catch branch). -/
inductive TlsLoadOutcome where
  | loaded
  | exitedProc (code : Nat)
  | warned
  deriving DecidableEq

/-- loadTlsCertificates from server.js: any failure inside the try block
reaches the catch, which calls process.exit(1) in production and only warns
otherwise. -/
def loadTlsCertificates (isProd : Bool) (fs : TlsFs) : TlsLoadOutcome :=
  if tlsLoadOk fs then TlsLoadOutcome.loaded
  else if isProd then TlsLoadOutcome.exitedProc 1
  else TlsLoadOutcome.warned

/-- The process-level outcome of module startup: exited before serving, or
serving HTTPS with the HTTP redirect server, or serving HTTP only. -/
inductive StartOutcome where
  | exited (code : Nat)
  | httpsWithRedirect
  | httpOnly
  deriving DecidableEq

/-- The startup sequence of server.js: loadTlsCertificates runs first (at
module initialization, before startServer), a production failure exits the
process before any listen call, and startServer then serves HTTPS plus the
redirect server when httpsOptions was populated and HTTP-only otherwise. -/
def serverStartup (nodeEnv : String) (fs : TlsFs) : StartOutcome :=
  match loadTlsCertificates (nodeEnv == "production") fs with
  | TlsLoadOutcome.exitedProc c => StartOutcome.exited c
  | TlsLoadOutcome.loaded => StartOutcome.httpsWithRedirect
  | TlsLoadOutcome.warned => StartOutcome.httpOnly

-- =========================================================================
-- Helper lemmas
-- =========================================================================

theorem decode_cons_ne_amp (c : Char) (h : ¬ c = '&') (l : List Char) :
    decodeList (c :: l) = c :: decodeList l := by
  rw [decodeList.eq_def]
  simp [h]

theorem decode_escape_cons (c : Char) (t : List Char) :
    decodeList (htmlEscapeChar c ++ t) = c :: decodeList t := by
  by_cases h1 : c = '&'
  · subst h1; rw [decodeList.eq_def]; rfl
  by_cases h2 : c = '<'
  · subst h2; rw [decodeList.eq_def]; rfl
  by_cases h3 : c = '>'
  · subst h3; rw [decodeList.eq_def]; rfl
  by_cases h4 : c = Char.ofNat 34
  · subst h4; rw [decodeList.eq_def]; rfl
  by_cases h5 : c = Char.ofNat 39
  · subst h5; rw [decodeList.eq_def]; rfl
  by_cases h6 : c = '/'
  · subst h6; rw [decodeList.eq_def]; rfl
  by_cases h7 : c = Char.ofNat 96
  · subst h7; rw [decodeList.eq_def]; rfl
  by_cases h8 : c = '='
  · subst h8; rw [decodeList.eq_def]; rfl
  · have hc : htmlEscapeChar c = [c] := by
      simp [htmlEscapeChar, h1, h2, h3, h4, h5, h6, h7, h8]
    rw [hc]
    simpa using decode_cons_ne_amp c h1 t

theorem decode_escape_list (l : List Char) : decodeList (escapeList l) = l := by
  induction l with
  | nil => rw [decodeList.eq_def]; rfl
  | cons c t ih => rw [escapeList, decode_escape_cons, ih]

-- =========================================================================
-- Claim theorems
-- =========================================================================

/-- C8: for every string s, escaping once with the eight-character HTML-entity
escaper and then re-parsing the entities recovers s exactly (decode after
escape is the identity); moreover escaping twice is demonstrably not the same
as escaping once, matching the documented non-idempotence. -/
theorem escape_decode_roundtrip :
    (∀ s : String, decodeEntities (escapeHtml s) = s) ∧
    escapeHtml (escapeHtml "<") ≠ escapeHtml "<" := by
  constructor
  · intro s
    show String.mk (decodeList (escapeList s.data)) = s
    rw [decode_escape_list]
  · decide

theorem defaultOrigins_ne_allowAny (nodeEnv : String) :
    defaultOrigins nodeEnv ≠ OriginSetting.allowAny := by
  unfold defaultOrigins
  split <;> simp

theorem parseAllowedOrigins_ne_allowAny (nodeEnv : String) (originsEnv : Option String) :
    parseAllowedOrigins nodeEnv originsEnv ≠ OriginSetting.allowAny := by
  cases originsEnv with
  | none => exact defaultOrigins_ne_allowAny nodeEnv
  | some s =>
    show (if jsTrim s = "" then defaultOrigins nodeEnv
          else OriginSetting.allowList (splitOrigins s)) ≠ OriginSetting.allowAny
    split
    · exact defaultOrigins_ne_allowAny nodeEnv
    · simp

theorem evaluateOrigin_ne_wildcard (st : OriginSetting)
    (h : st ≠ OriginSetting.allowAny) (ro : Option String) :
    evaluateOrigin st ro ≠ OriginDecision.allowWildcard := by
  cases st with
  | denyAll => cases ro <;> simp [evaluateOrigin]
  | allowAny => exact absurd rfl h
  | allowList l =>
    cases ro with
    | none => simp [evaluateOrigin]
    | some o =>
      show (if l.contains o then OriginDecision.allowOrigin o
            else OriginDecision.noHeader) ≠ OriginDecision.allowWildcard
      split <;> simp

/-- C1: the corsConfig of src/src/config/security.js always enables
credentials, and for every value of the ALLOWED_ORIGINS variable and every
NODE_ENV the resolved origin setting is the deny-all sentinel or a list of
literal origin strings, never the wildcard-any sentinel; consequently the
origin decision of the gate never emits the substituted wildcard allow-origin
while credentials are enabled (every emitted value is the request's own
origin reflected from the allowlist). -/
theorem cors_no_credentialed_wildcard (nodeEnv : String) (originsEnv : Option String)
    (reqOrigin : Option String) :
    (corsConfig nodeEnv originsEnv).credentials = true ∧
    (corsConfig nodeEnv originsEnv).origin ≠ OriginSetting.allowAny ∧
    evaluateOrigin (corsConfig nodeEnv originsEnv).origin reqOrigin ≠
      OriginDecision.allowWildcard :=
  ⟨rfl, parseAllowedOrigins_ne_allowAny nodeEnv originsEnv,
   evaluateOrigin_ne_wildcard _ (parseAllowedOrigins_ne_allowAny nodeEnv originsEnv) reqOrigin⟩

/-- C3: an absent, empty or whitespace-only ALLOWED_ORIGINS resolves to the
fixed localhost allowlist in development and to the deny-all sentinel in
production; a non-empty value resolves, in every environment, to its
comma-split, trimmed, non-empty entries in their original order. -/
theorem allowed_origins_resolution (originsEnv : Option String) :
    ((originsEnv = none ∨ ∃ s, originsEnv = some s ∧ jsTrim s = "") →
      parseAllowedOrigins "development" originsEnv =
        OriginSetting.allowList ["http://localhost:3000", "https://localhost:3443"] ∧
      parseAllowedOrigins "production" originsEnv = OriginSetting.denyAll) ∧
    (∀ s : String, originsEnv = some s → jsTrim s ≠ "" →
      ∀ nodeEnv : String,
        parseAllowedOrigins nodeEnv originsEnv = OriginSetting.allowList (splitOrigins s)) := by
  constructor
  · rintro (rfl | ⟨s, rfl, hs⟩)
    · constructor <;> simp [parseAllowedOrigins, defaultOrigins]
    · constructor <;> simp [parseAllowedOrigins, defaultOrigins, hs]
  · rintro s rfl hs nodeEnv
    simp [parseAllowedOrigins, hs]

/-- C3 witness: the resolution evaluated at concrete inputs covering the
three branches, with the split list computed. -/
theorem allowed_origins_resolution_witness :
    parseAllowedOrigins "development" none =
      OriginSetting.allowList ["http://localhost:3000", "https://localhost:3443"] ∧
    parseAllowedOrigins "production" (some "  ") = OriginSetting.denyAll ∧
    parseAllowedOrigins "production" (some " a.example , b.example ,, ") =
      OriginSetting.allowList (splitOrigins " a.example , b.example ,, ") ∧
    splitOrigins " a.example , b.example ,, " = ["a.example", "b.example"] :=
  ⟨((allowed_origins_resolution none).1 (Or.inl rfl)).1,
   ((allowed_origins_resolution (some "  ")).1 (Or.inr ⟨_, rfl, by decide⟩)).2,
   (allowed_origins_resolution (some " a.example , b.example ,, ")).2 _ rfl (by decide) _,
   by decide⟩

/-- C2 counterexample: a negative RATE_LIMIT_WINDOW_MS (or RATE_LIMIT) value
does not fall back to the documented default: parseInt yields the negative
integer, which is truthy in JS, so the resolved window and limit are
negative, contradicting both the fallback-on-negative clause and the
always-positive clause of the claim. -/
theorem rate_limit_negative_counterexample :
    resolveWindowMs (some "-5") = -5 ∧ resolveWindowMs (some "-5") < 0 ∧
    resolveLimit (some "-5") = -5 := by
  refine ⟨by decide, by decide, by decide⟩

/-- C2 amended: windowMs and limit fall back to 900000 and 100 exactly when
the source variable is absent, non-numeric (parseInt yields NaN), or parses
to zero; a nonzero parse — including a negative one — propagates as the
resolved value; the resolved values are always nonzero integers and never
NaN or undefined, but they are not guaranteed positive. -/
theorem rate_limit_resolution_amended (e : Option String) :
    (jsParseInt e = none → resolveWindowMs e = 900000 ∧ resolveLimit e = 100) ∧
    (jsParseInt e = some 0 → resolveWindowMs e = 900000 ∧ resolveLimit e = 100) ∧
    (∀ n : Int, jsParseInt e = some n → n ≠ 0 →
      resolveWindowMs e = n ∧ resolveLimit e = n) ∧
    resolveWindowMs e ≠ 0 ∧ resolveLimit e ≠ 0 := by
  refine ⟨?_, ?_, ?_, ?_, ?_⟩
  · intro h
    constructor <;> simp [resolveWindowMs, resolveLimit, jsOrInt, h]
  · intro h
    constructor <;> simp [resolveWindowMs, resolveLimit, jsOrInt, h]
  · intro n h hn
    constructor <;> simp [resolveWindowMs, resolveLimit, jsOrInt, h, hn]
  · cases h : jsParseInt e with
    | none => simp [resolveWindowMs, jsOrInt, h]
    | some n =>
      simp only [resolveWindowMs, jsOrInt, h]
      split
      · decide
      · assumption
  · cases h : jsParseInt e with
    | none => simp [resolveLimit, jsOrInt, h]
    | some n =>
      simp only [resolveLimit, jsOrInt, h]
      split
      · decide
      · assumption

/-- C2 witness: a numeric value with trailing garbage parses to its digit
prefix, and a non-numeric value falls back to the default. -/
theorem rate_limit_resolution_amended_witness :
    resolveWindowMs (some " 42abc") = 42 ∧ resolveLimit (some "abc") = 100 :=
  ⟨((rate_limit_resolution_amended (some " 42abc")).2.2.1 42 (by decide) (by decide)).1,
   ((rate_limit_resolution_amended (some "abc")).1 (by decide)).2⟩

/-- C4 counterexample: neither configured rejection body equals the claimed
JSON object with the error string rate limit exceeded — the hardened config
uses a different error string and the alternate config additionally carries a
second field. -/
theorem rate_limit_body_counterexample :
    (rejectionResponse (securityRateLimitConfig none none)).2 ≠
      JSValue.obj [("error", JSValue.str "rate limit exceeded")] ∧
    (rejectionResponse (rateLimitConfigAlt none none)).2 ≠
      JSValue.obj [("error", JSValue.str "rate limit exceeded")] := by
  constructor <;> exact fun h => absurd (congrArg errorFieldOf h) (by decide)

/-- C4 amended: rejection carries HTTP status 429 in both configurations (the
alternate config sets it explicitly, the hardened config inherits the library
default), and the JSON body is the configured message object: an error field
reading Too many requests, please try again later. in the hardened config,
and the two-field Too many requests body in the alternate config. -/
theorem rate_limit_rejection_amended (windowEnv limitEnv : Option String) :
    (rejectionResponse (securityRateLimitConfig windowEnv limitEnv)).1 = 429 ∧
    (rejectionResponse (securityRateLimitConfig windowEnv limitEnv)).2 =
      JSValue.obj [("error", JSValue.str "Too many requests, please try again later.")] ∧
    (rejectionResponse (rateLimitConfigAlt windowEnv limitEnv)).1 = 429 ∧
    (rejectionResponse (rateLimitConfigAlt windowEnv limitEnv)).2 =
      JSValue.obj
        [("error", JSValue.str "Too many requests"),
         ("message", JSValue.str "You have exceeded the rate limit. Please try again later.")] :=
  ⟨rfl, rfl, rfl, rfl⟩

/-- C5 counterexample: in production the served application emits no
Cross-Origin-Embedder-Policy header at all — server.js applies
helmet(helmetConfig) and helmetConfig never sets the COEP option — refuting
the claim that the served header-hardening stage emits require-corp exactly
in production. -/
theorem served_coep_production_counterexample :
    servedCoepHeader true = none ∧ servedCoepHeader true ≠ some "require-corp" :=
  ⟨rfl, by decide⟩

/-- C5 amended: the configureHelmet helper of src/src/middleware/security.js,
taken with no override, configures COEP require-corp exactly in production
and disables it otherwise; but the served application never emits the COEP
header in any environment, because server.js passes helmetConfig (which
leaves the option unset) directly to helmet, whose default omits the
header. -/
theorem coep_emission_amended (isProd : Bool) :
    servedCoepHeader isProd = none ∧
    helmetCoepHeader (configureHelmetCoep none isProd) =
      (if isProd then some "require-corp" else none) := by
  constructor
  · rfl
  · cases isProd <;> rfl

/-- C9: whenever the TLS private key or certificate cannot be loaded, the
production startup exits the process with code 1 — a non-zero code — and
never reaches a serving outcome, while the development startup proceeds to
serve HTTP-only after a warning. -/
theorem tls_startup_failure (fs : TlsFs) (h : tlsLoadOk fs = false) :
    serverStartup "production" fs = StartOutcome.exited 1 ∧
    (1 : Nat) ≠ 0 ∧
    serverStartup "development" fs = StartOutcome.httpOnly := by
  refine ⟨?_, by decide, ?_⟩ <;> simp [serverStartup, loadTlsCertificates, h]

/-- C9 witness: the startup outcomes at a concrete filesystem missing the
private key. -/
theorem tls_startup_failure_witness :
    serverStartup "production" (TlsFs.mk false true true true) = StartOutcome.exited 1 ∧
    serverStartup "development" (TlsFs.mk false true true true) = StartOutcome.httpOnly :=
  ⟨(tls_startup_failure (TlsFs.mk false true true true) (by decide)).1,
   (tls_startup_failure (TlsFs.mk false true true true) (by decide)).2.2⟩

theorem sanitizeArr_map (xs : List JSValue) (d : Nat) :
    sanitizeArr xs d = xs.map fun x => sanitizeObject x d := by
  induction xs with
  | nil => simp [sanitizeArr]
  | cons x t ih => simp [sanitizeArr, ih]

theorem sanitizeFields_map (fs : List (String × JSValue)) (d : Nat) :
    sanitizeFields fs d = fs.map fun kv => (escapeHtml kv.1, sanitizeObject kv.2 d) := by
  induction fs with
  | nil => simp [sanitizeFields]
  | cons kv t ih =>
    cases kv
    simp [sanitizeFields, ih]

/-- C7: the recursive defense-in-depth sanitizer, at every depth up to the
limit of 10, maps every string value to the HTML-escape of its trimmed form
and every object key to its HTML-escape, passes every non-string scalar
(number, boolean, null, undefined) through unchanged, recurses into arrays
and objects at depth plus one, and returns any value at a depth beyond the
limit entirely as-is. -/
theorem sanitizeObject_depth_behavior (d : Nat) :
    (∀ v : JSValue, 10 < d → sanitizeObject v d = v) ∧
    (d ≤ 10 → ∀ s, sanitizeObject (JSValue.str s) d = JSValue.str (escapeHtml (jsTrim s))) ∧
    (d ≤ 10 → ∀ n, sanitizeObject (JSValue.num n) d = JSValue.num n) ∧
    (d ≤ 10 → ∀ b, sanitizeObject (JSValue.boolV b) d = JSValue.boolV b) ∧
    (d ≤ 10 → sanitizeObject JSValue.nullV d = JSValue.nullV ∧
      sanitizeObject JSValue.undef d = JSValue.undef) ∧
    (d ≤ 10 → ∀ xs, sanitizeObject (JSValue.arr xs) d =
      JSValue.arr (xs.map fun x => sanitizeObject x (d + 1))) ∧
    (d ≤ 10 → ∀ fs, sanitizeObject (JSValue.obj fs) d =
      JSValue.obj (fs.map fun kv => (escapeHtml kv.1, sanitizeObject kv.2 (d + 1)))) := by
  refine ⟨?_, ?_, ?_, ?_, ?_, ?_, ?_⟩
  · intro v h
    rw [sanitizeObject.eq_def]
    simp [h]
  · intro h s
    have hn : ¬ 10 < d := by omega
    simp [sanitizeObject, hn]
  · intro h n
    have hn : ¬ 10 < d := by omega
    simp [sanitizeObject, hn]
  · intro h b
    have hn : ¬ 10 < d := by omega
    simp [sanitizeObject, hn]
  · intro h
    have hn : ¬ 10 < d := by omega
    constructor <;> simp [sanitizeObject, hn]
  · intro h xs
    have hn : ¬ 10 < d := by omega
    simp [sanitizeObject, hn, sanitizeArr_map]
  · intro h fs
    have hn : ¬ 10 < d := by omega
    simp [sanitizeObject, hn, sanitizeFields_map]

/-- C7 witness: a string at depth 11 is returned untouched, and at depth 0 it
is trimmed and escaped. -/
theorem sanitizeObject_depth_behavior_witness :
    sanitizeObject (JSValue.str " <a ") 11 = JSValue.str " <a " ∧
    sanitizeObject (JSValue.str " <a ") 0 = JSValue.str "&lt;a" :=
  ⟨(sanitizeObject_depth_behavior 11).1 _ (by decide),
   ((sanitizeObject_depth_behavior 0).2.1 (by decide) " <a ").trans
     (congrArg JSValue.str (by decide))⟩

theorem jsTrim_ws (s : String) (h : isWsOnly s = true) : jsTrim s = "" := by
  have hall : ∀ c ∈ s.data, isJsWhitespaceChar c = true := by
    simpa [isWsOnly, List.all_eq_true] using h
  have h1 : s.data.dropWhile isJsWhitespaceChar = [] := by
    rw [List.dropWhile_eq_nil_iff]
    intro x hx
    exact hall x hx
  show String.mk (trimListChars s.data) = ""
  rw [trimListChars, h1]
  rfl

/-- C10 (implicit): at every depth within the limit the body sanitizer trims
leading and trailing whitespace from every string value before escaping it,
so a whitespace-only string value inside the request body reaches the handler
as the empty string. -/
theorem sanitize_trims_strings (s : String) (d : Nat) (k : String) (hd : d ≤ 10) :
    sanitizeObject (JSValue.str s) d = JSValue.str (escapeHtml (jsTrim s)) ∧
    (isWsOnly s = true → sanitizeObject (JSValue.str s) d = JSValue.str "") ∧
    (isWsOnly s = true →
      sanitizeBody (JSValue.obj [(k, JSValue.str s)]) =
        JSValue.obj [(escapeHtml k, JSValue.str "")]) := by
  have hn : ¬ 10 < d := by omega
  have hstr : sanitizeObject (JSValue.str s) d = JSValue.str (escapeHtml (jsTrim s)) := by
    simp [sanitizeObject, hn]
  have hes : isWsOnly s = true → escapeHtml (jsTrim s) = "" := by
    intro hws
    rw [jsTrim_ws s hws]
    decide
  refine ⟨hstr, ?_, ?_⟩
  · intro hws
    rw [hstr]
    exact congrArg JSValue.str (hes hws)
  · intro hws
    have hn1 : ¬ (10 : Nat) < 1 := by omega
    have h1 : sanitizeObject (JSValue.str s) 1 = JSValue.str "" := by
      simp [sanitizeObject, hn1, hes hws]
    have hn0 : ¬ (10 : Nat) < 0 := by omega
    simp [sanitizeBody, isObjectLike, sanitizeObject, hn0, sanitizeFields, h1, hes hws]

/-- C10 witness: a whitespace-only body value is forwarded as the empty
string with its key escaped. -/
theorem sanitize_trims_strings_witness :
    sanitizeBody (JSValue.obj [("a", JSValue.str " \t ")]) =
      JSValue.obj [(escapeHtml "a", JSValue.str "")] :=
  (sanitize_trims_strings " \t " 0 "a" (by decide)).2.2 (by decide)

/-- C6 amended: sanitizeErrorMessage is exactly the composition of the seven
sequential redaction passes, the 200-character truncation with the ellipsis
marker, and the HTML-escape, in that order; the truncated pre-escape
intermediate never exceeds 203 characters (200 plus the marker). The original
claim's final guarantees fail: the escape step can lengthen the returned
message past that bound, and truncation can re-expose a sensitive-pattern
match, as the counterexample shows. -/
theorem sanitize_error_message_structure (m : String) :
    sanitizeErrorMessage m = String.mk (escapeList (truncateMessage (redactAll m.data))) ∧
    (truncateMessage (redactAll m.data)).length ≤ 203 := by
  refine ⟨rfl, ?_⟩
  unfold truncateMessage
  split
  · simp only [List.length_append, List.length_take, List.length_cons, List.length_nil]
    omega
  · omega

set_option maxRecDepth 100000 in
set_option maxHeartbeats 4000000 in
/-- C6 counterexample: on the 201-character message of badIpMsg the returned
sanitized message still contains a substring matching the IP-address pattern
(truncation cut the disqualifying trailing character), and on the
201-ampersand message the returned message is 1003 characters long — far
beyond 200 plus the ellipsis marker. Both refute the claim's consequences. -/
theorem sanitize_error_message_counterexample :
    hasMatch matchIpAt (sanitizeErrorMessage badIpMsg).data = true ∧
    (sanitizeErrorMessage badAmpMsg).length = 1003 := by
  constructor
  · decide
  · decide
